import Mathlib

/-!
Verification of the developer tooling of the oran-o2ims repository.

The Python sources under dev/ are shallowly embedded: every external
interaction (subprocess spawn, filesystem write, permission change,
logging call) is recorded as an explicit effect, and the outside world
(results of shutil.which, captured subprocess outputs and exit codes,
the PATH variable, the location of the package) is a read-only
environment record. Each Python function becomes a Lean function from
that environment to a result (normal return or raised exception)
paired with the ordered list of effects it performs.
-/

namespace Dev

/-- One observable effect performed by the tooling. Subprocesses started
through command.run and command.eval are recorded with their argument
lists; file writes, permission changes, temporary-directory handling and
the two logging.info call sites of setup.py are recorded structurally. -/
inductive Effect where
  | runCmd (args : List String)
  | runCmdIn (dir : String) (args : List String)
  | evalCmd (args : List String)
  | writeFile (path content : String)
  | chmodExec (path : String)
  | mkdirTemp (path : String)
  | removeTree (path : String)
  | logInstalled (tool location : String)
  | logVersion (tool ver : String)
deriving DecidableEq, Repr

/-- The exceptions the embedded code can raise. The Python code raises
plain Exception values; they are identified here by their raise site.
attrNone models the AttributeError raised when os.getenv returns None
and a method is called on it. -/
inductive Exc where
  | goToolMissing
  | goEnvFailed (varName : String)
  | versionNotFound (tool : String)
  | noBinDirectory
  | attrNone
deriving DecidableEq, Repr

/-- A parsed pathlib.PurePosixPath: whether the path is absolute, plus
its components with empty and single-dot components dropped, which is
how pathlib normalises before comparing paths for equality. -/
structure PyPath where
  absolute : Bool
  parts : List String
deriving DecidableEq, Repr

/-- A Python value that can sit in the PATH set of select_bin_directory:
either a str or a pathlib.Path. Needed because the code mixes the two. -/
inductive PyVal where
  | ofStr (s : String)
  | ofPath (p : PyPath)
deriving DecidableEq, Repr

/-- Python equality between such values: str and Path objects are never
equal to each other, whatever their contents, because both __eq__
methods return NotImplemented across types. -/
def pyEq : PyVal → PyVal → Bool
  | .ofStr a, .ofStr b => a == b
  | .ofPath a, .ofPath b => a == b
  | _, _ => false

/-- Python membership test of a value in a collection, element by
element with Python equality. -/
def pyMember (v : PyVal) (s : List PyVal) : Bool :=
  s.any (pyEq v)

/-- Split a character list at every occurrence of the separator, the
way str.split with a one-character separator behaves (an empty input
yields one empty field). -/
def splitChar (c : Char) : List Char → List (List Char)
  | [] => [[]]
  | x :: xs =>
    let r := splitChar c xs
    if x = c then [] :: r
    else
      match r with
      | [] => [[x]]
      | y :: ys => (x :: y) :: ys

/-- str.split with a one-character separator. -/
def splitOnChar (c : Char) (s : String) : List String :=
  (splitChar c s.toList).map (fun l => String.mk l)

/-- Parse a string into a pathlib path: absolute when it starts with a
slash, components split on slashes with empty and single-dot components
dropped. -/
def parsePath (s : String) : PyPath where
  absolute :=
    match s.toList with
    | '/' :: _ => true
    | _ => false
  parts := (splitOnChar '/' s).filter (fun p => p ≠ "" && p ≠ ".")

/-- pathlib parent: drop the last component. -/
def PyPath.parent (p : PyPath) : PyPath where
  absolute := p.absolute
  parts := p.parts.dropLast

/-- pathlib slash operator with a single relative component. -/
def PyPath.child (p : PyPath) (c : String) : PyPath where
  absolute := p.absolute
  parts := p.parts ++ [c]

/-- str() applied to a pathlib path. -/
def pathStr (p : PyPath) : String :=
  if p.absolute then "/" ++ String.intercalate "/" p.parts
  else if p.parts = [] then "." else String.intercalate "/" p.parts

/-- The read-only outside world of one invocation: results of
shutil.which by binary name, exit code and stripped standard output that
command.eval would capture for a given argument list, the exit code a
child started by command.run would return, the PATH variable, the
grandparent directory of the setup.py file, and the directory name that
tempfile.mkdtemp returns. -/
structure Env where
  which : String → Option String
  evalExit : List String → Int
  evalOut : List String → String
  runExit : List String → Int
  pathVar : Option String
  projectDir : PyPath
  tmpDir : String

/-- Result of an embedded computation: a normal return or a raised
exception, together with the effects performed, in order. -/
abbrev Res (α : Type) := Except Exc α × List Effect

/-- Sequence two computations, propagating a raised exception and
concatenating effect lists. -/
def bindE {α β : Type} (a : Res α) (f : α → Res β) : Res β :=
  match a with
  | (.ok x, t) =>
    let r := f x
    (r.1, t ++ r.2)
  | (.error e, t) => (.error e, t)

/-- A computation that only performs one effect. -/
def emit (e : Effect) : Res Unit :=
  (.ok (), [e])

/-- Embeds command.run (dev/command.py lines 21 to 31). It starts the
subprocess and logs the exit code at debug level, but subprocess.run is
called without the check flag, so a non-zero exit code raises nothing:
the function always returns normally and the code is discarded. -/
def command_run (env : Env) (args : List String) : Res Unit :=
  let _code := env.runExit args
  (.ok (), [.runCmd args])

/-- Embeds command.run when called with a cwd keyword argument, as in
generate.py and deploy.py. The exit code is discarded the same way. -/
def command_run_in (env : Env) (dir : String) (args : List String) : Res Unit :=
  let _code := env.runExit args
  (.ok (), [.runCmdIn dir args])

/-- Embeds command.eval (dev/command.py lines 33 to 48): runs the
command with captured output and returns the exit code together with
the stripped standard output text. It never raises. -/
def command_eval (env : Env) (args : List String) : Res (Int × String) :=
  ((Except.ok (env.evalExit args, env.evalOut args)), [.evalCmd args])

/-- Embeds go_env (dev/setup.py lines 275 to 286): evaluates the go env
command for the variable and raises when the exit code is not zero.
The functools.cache decorator memoises the call; since the environment
record is a function of the argument list the cached and uncached
computations return the same value, and no claim counts repeated go env
invocations, so the cache is not modelled separately. -/
def go_env (env : Env) (v : String) : Res String :=
  bindE (command_eval env ["go", "env", v]) fun r =>
    if r.1 = 0 then (.ok r.2, []) else (.error (.goEnvFailed v), [])

/-- The PATH entries as built by select_bin_directory (dev/setup.py
lines 341 to 343): the PATH string is split on the os.pathsep colon and
every entry is wrapped in pathlib.Path. The resulting collection
therefore holds Path objects, not strings. -/
def pathEntries (pv : String) : List PyVal :=
  (splitOnChar ':' pv).map (fun d => PyVal.ofPath (parsePath d))

/-- Embeds select_bin_directory (dev/setup.py lines 336 to 367). The
four candidates are tried in order: the .local/bin directory next to
the project, the bin directory inside the project, the GOBIN directory
reported by go env, and the bin directory under GOROOT. Note that the
GOBIN candidate is the raw string returned by go_env and is tested for
membership without being wrapped in pathlib.Path, exactly as in the
source. When PATH is unset, os.getenv returns None and the split call
raises an AttributeError. -/
def select_bin_directory (env : Env) : Res String :=
  match env.pathVar with
  | none => (.error .attrNone, [])
  | some pv =>
    let entries := pathEntries pv
    let localBin := ((env.projectDir.parent.child ".local").child "bin")
    if pyMember (.ofPath localBin) entries then (.ok (pathStr localBin), [])
    else
      let repoBin := env.projectDir.child "bin"
      if pyMember (.ofPath repoBin) entries then (.ok (pathStr repoBin), [])
      else
        bindE (go_env env "GOBIN") fun gobin =>
          if pyMember (.ofStr gobin) entries then (.ok gobin, [])
          else
            bindE (go_env env "GOROOT") fun groot =>
              let rootBin := (parsePath groot).child "bin"
              if pyMember (.ofPath rootBin) entries then (.ok (pathStr rootBin), [])
              else (.error .noBinDirectory, [])

/-- True when a path segment matches the Python regular expression
caret v backslash-d plus dollar, i.e. a v followed by one or more
digits, as tested in go_install. -/
def isVersionSegment (s : String) : Bool :=
  match s.toList with
  | 'v' :: rest => !rest.isEmpty && rest.all Char.isDigit
  | _ => false

/-- The binary name go_install derives from the tool path (dev/setup.py
lines 306 to 309): the last path segment, or the one before it when the
last segment is a version number such as v5. -/
def goBinName (tool : String) : String :=
  let segments := splitOnChar '/' tool
  let last := segments.getLastD ""
  if isVersionSegment last then segments.dropLast.getLastD "" else last

/-- The argument list of one dependency-manifest probe in go_install. -/
def goListArgs (package : String) : List String :=
  ["go", "list", "-f", "\x7b\x7b.Version\x7d\x7d", "-m", package]

/-- The packages probed by the version-inference loop of go_install
(dev/setup.py line 319): the loop variable runs over
range(len(segments)-1, 2, -1), so the joined prefixes go from one
segment short of the full tool path down to three segments. -/
def probedPackages (segments : List String) : List String :=
  (((List.range segments.length).drop 3).reverse).map
    (fun i => String.intercalate "/" (segments.take i))

/-- Embeds the version-inference loop of go_install (dev/setup.py lines
319 to 325). Python reuses the variable named version as the target of
the tuple unpacking inside the loop, so after every probe, successful
or not, that variable holds the captured output of the probe; the
accumulator argument models it. The loop breaks at the first probe
whose exit code is zero. -/
def probeLoop (env : Env) : List String → Option String → Res (Option String)
  | [], acc => (.ok acc, [])
  | pkg :: rest, _ =>
    let args := goListArgs pkg
    let code := env.evalExit args
    let out := env.evalOut args
    if code = 0 then (.ok (some out), [.evalCmd args])
    else
      let r := probeLoop env rest (some out)
      (r.1, .evalCmd args :: r.2)

/-- Embeds go_install (dev/setup.py lines 288 to 333). When the binary
name is already found on the search path the function logs and returns.
Otherwise, when no explicit version was given, the probe loop runs;
afterwards the code raises only if the version variable is still None,
which due to the variable reuse modelled in probeLoop only happens when
the loop had zero iterations. Finally go install is invoked with the
tool path and the version joined by an at sign. -/
def go_install (env : Env) (tool : String) (version : Option String) : Res Unit :=
  let name := goBinName tool
  match env.which name with
  | some binary => (.ok (), [.logInstalled name binary])
  | none =>
    match version with
    | some v =>
      command_run env ["go", "install", tool ++ "@" ++ v]
    | none =>
      bindE (probeLoop env (probedPackages (splitOnChar '/' tool)) none) fun ver =>
        match ver with
        | none => (.error (.versionNotFound tool), [])
        | some v =>
          bindE (emit (.logVersion tool v)) fun _ =>
            command_run env ["go", "install", tool ++ "@" ++ v]

/-- Modelled from the spec: the versions module imported by setup.py is
not among the provided sources. The spec describes version strings as
opaque text with no parsing or comparison semantics, so each constant
is an opaque placeholder; no claim depends on the concrete value. -/
def versions_GOLANGCI_LINT : String := "0.0.0"

/-- Modelled from the spec: placeholder version, see versions_GOLANGCI_LINT. -/
def versions_MOCKGEN : String := "0.0.0"

/-- Modelled from the spec: placeholder version, see versions_GOLANGCI_LINT. -/
def versions_KUSTOMIZE : String := "0.0.0"

/-- Modelled from the spec: placeholder version, see versions_GOLANGCI_LINT. -/
def versions_CONTROLLER_GEN : String := "0.0.0"

/-- Modelled from the spec: placeholder version, see versions_GOLANGCI_LINT. -/
def versions_OPM : String := "0.0.0"

/-- Modelled from the spec: placeholder version, see versions_GOLANGCI_LINT. -/
def versions_OPERATOR_SDK : String := "0.0.0"

/-- Modelled from the spec: placeholder version, see versions_GOLANGCI_LINT. -/
def versions_SPECTRAL : String := "0.0.0"

/-- Embeds install_go (dev/setup.py lines 50 to 63): succeed as a no-op
when a go binary is on the search path, otherwise raise immediately; no
download or installation of the toolchain is ever attempted. -/
def install_go (env : Env) : Res Unit :=
  match env.which "go" with
  | some directory => (.ok (), [.logInstalled "go" directory])
  | none => (.error .goToolMissing, [])

/-- The pinned sha256 digest of the golangci-lint release artifact
(dev/setup.py line 102). -/
def golangciDigest : String :=
  "ca21c961a33be3bc15e4292dc40c98c8dcc5463a7b6768a3afc123761630c09c"

/-- Embeds install_golangci_lint (dev/setup.py lines 80 to 138). After
the already-installed check and the directory selection, the function
downloads the release tarball with curl, writes a digest file, runs
sha256sum with the check flag, and extracts the binary into the chosen
directory with tar; the temporary directory is removed in a finally
block. All three subprocesses go through command_run, whose exit code
is discarded, so a curl failure or a digest mismatch stops nothing. -/
def install_golangci_lint (env : Env) : Res Unit :=
  match env.which "golangci-lint" with
  | some binary => (.ok (), [.logInstalled "golangci-lint" binary])
  | none =>
    bindE (select_bin_directory env) fun bin =>
      bindE (go_env env "GOOS") fun plat =>
        bindE (go_env env "GOARCH") fun arch =>
          let url :=
            "https://github.com/golangci/golangci-lint/releases/download/v"
              ++ versions_GOLANGCI_LINT ++ "/golangci-lint-" ++ versions_GOLANGCI_LINT
              ++ "-" ++ plat ++ "-" ++ arch ++ ".tar.gz"
          let tmp := env.tmpDir
          let tarball := tmp ++ "/tarball"
          let digestFile := tmp ++ "/digest"
          bindE (emit (.mkdirTemp tmp)) fun _ =>
            bindE (command_run env
                ["curl", "--location", "--silent", "--fail", "--output", tarball, url]) fun _ =>
              bindE (emit (.writeFile digestFile (golangciDigest ++ " " ++ tarball ++ "\n"))) fun _ =>
                bindE (command_run env ["sha256sum", "--check", digestFile]) fun _ =>
                  bindE (command_run env
                      ["tar", "--directory", bin, "--extract", "--file", tarball,
                        "--strip-components", "1",
                        "golangci-lint-" ++ versions_GOLANGCI_LINT ++ "-" ++ plat ++ "-" ++ arch
                          ++ "/golangci-lint"]) fun _ =>
                    emit (.removeTree tmp)

/-- Embeds install_opm (dev/setup.py lines 140 to 174): check the
search path, select a directory, download the binary with curl directly
into it, then add the user execute permission bit. -/
def install_opm (env : Env) : Res Unit :=
  match env.which "opm" with
  | some binary => (.ok (), [.logInstalled "opm" binary])
  | none =>
    bindE (select_bin_directory env) fun bin =>
      bindE (go_env env "GOOS") fun plat =>
        bindE (go_env env "GOARCH") fun arch =>
          let url :=
            "https://github.com/operator-framework/operator-registry/releases/download/v"
              ++ versions_OPM ++ "/" ++ plat ++ "-" ++ arch ++ "-opm"
          let file := bin ++ "/opm"
          bindE (command_run env
              ["curl", "--location", "--silent", "--fail", "--output", file, url]) fun _ =>
            emit (.chmodExec file)

/-- Embeds install_operator_sdk (dev/setup.py lines 176 to 210), with
the same shape as install_opm. -/
def install_operator_sdk (env : Env) : Res Unit :=
  match env.which "operator-sdk" with
  | some binary => (.ok (), [.logInstalled "operator-sdk" binary])
  | none =>
    bindE (select_bin_directory env) fun bin =>
      bindE (go_env env "GOOS") fun plat =>
        bindE (go_env env "GOARCH") fun arch =>
          let url :=
            "https://github.com/operator-framework/operator-sdk/releases/download/v"
              ++ versions_OPERATOR_SDK ++ "/operator-sdk_" ++ plat ++ "_" ++ arch
          let file := bin ++ "/operator-sdk"
          bindE (command_run env
              ["curl", "--location", "--silent", "--fail", "--output", file, url]) fun _ =>
            emit (.chmodExec file)

/-- Embeds install_spectral (dev/setup.py lines 237 to 273): same shape
as install_opm, with the amd64 architecture identifier renamed to x64
in the download URL. -/
def install_spectral (env : Env) : Res Unit :=
  match env.which "spectral" with
  | some binary => (.ok (), [.logInstalled "spectral" binary])
  | none =>
    bindE (select_bin_directory env) fun bin =>
      bindE (go_env env "GOOS") fun plat =>
        bindE (go_env env "GOARCH") fun arch0 =>
          let arch := if arch0 = "amd64" then "x64" else arch0
          let url :=
            "https://github.com/stoplightio/spectral/releases/download/v"
              ++ versions_SPECTRAL ++ "/spectral-" ++ plat ++ "-" ++ arch
          let file := bin ++ "/spectral"
          bindE (command_run env
              ["curl", "--location", "--silent", "--fail", "--output", file, url]) fun _ =>
            emit (.chmodExec file)

/-- Embeds install_ginkgo (dev/setup.py lines 65 to 69). -/
def install_ginkgo (env : Env) : Res Unit :=
  go_install env "github.com/onsi/ginkgo/v2/ginkgo" none

/-- Embeds install_mockgen (dev/setup.py lines 71 to 78). -/
def install_mockgen (env : Env) : Res Unit :=
  go_install env "go.uber.org/mock/mockgen" (some ("v" ++ versions_MOCKGEN))

/-- Embeds install_kustomize (dev/setup.py lines 212 to 219). -/
def install_kustomize (env : Env) : Res Unit :=
  go_install env "sigs.k8s.io/kustomize/kustomize/v5" (some ("v" ++ versions_KUSTOMIZE))

/-- Embeds install_controller_gen (dev/setup.py lines 221 to 228). -/
def install_controller_gen (env : Env) : Res Unit :=
  go_install env "sigs.k8s.io/controller-tools/cmd/controller-gen"
    (some ("v" ++ versions_CONTROLLER_GEN))

/-- Embeds install_setup_envtest (dev/setup.py lines 230 to 235). -/
def install_setup_envtest (env : Env) : Res Unit :=
  go_install env "sigs.k8s.io/controller-runtime/tools/setup-envtest" (some "latest")

/-- Default image repository (dev/defaults.py). -/
def defaults_IMAGE_REPOSITORY : String := "quay.io/openshift-kni/oran-o2ims"

/-- Default image tag (dev/defaults.py). -/
def defaults_IMAGE_TAG : String := "latest"

/-- Embeds the mocks subcommand of generate (dev/generate.py lines 37
to 42). -/
def generate_mocks (env : Env) : Res Unit :=
  command_run env ["go", "generate", "./..."]

/-- Embeds the manifests subcommand of generate (dev/generate.py lines
44 to 56); os.path.join renders the output directory with slashes. -/
def generate_manifests (env : Env) : Res Unit :=
  command_run env
    ["controller-gen", "rbac:roleName=manager-role", "crd", "webhook", "paths=./...",
      "output:crd:artifacts:config=config/crd/bases"]

/-- Embeds the deep-copy subcommand of generate (dev/generate.py lines
58 to 67). -/
def generate_deep_copy (env : Env) : Res Unit :=
  command_run env
    ["controller-gen", "object:headerFile=hack/boilerplate.go.txt", "paths=./..."]

/-- Embeds the bundle subcommand of generate (dev/generate.py lines 69
to 105): four external commands, the second one run with its working
directory set to config/manager. -/
def generate_bundle (env : Env) (image : String) : Res Unit :=
  bindE (command_run env
      ["operator-sdk", "generate", "kustomize", "manifests", "--quiet",
        "--apis-dir", "api"]) fun _ =>
    bindE (command_run_in env "config/manager"
        ["kustomize", "edit", "set", "image", "controller=" ++ image]) fun _ =>
      bindE (command_run env ["kustomize", "build", "config/manifests"]) fun _ =>
        command_run env ["operator-sdk", "bundle", "validate", "./bundle"]

/-- Embeds the generate group callback with no subcommand
(dev/generate.py lines 24 to 35): ctx.invoke runs mocks, manifests,
deep-copy and bundle in that order, bundle with its default image
option; an exception raised by a step would propagate and stop the
remaining steps, which bindE models. -/
def generate_all (env : Env) : Res Unit :=
  bindE (generate_mocks env) fun _ =>
    bindE (generate_manifests env) fun _ =>
      bindE (generate_deep_copy env) fun _ =>
        generate_bundle env (defaults_IMAGE_REPOSITORY ++ ":" ++ defaults_IMAGE_TAG)

/-- Embeds the binary subcommand of build (dev/build.py lines 34 to
39), the default subcommand of the build group. -/
def build_binary (env : Env) : Res Unit :=
  command_run env ["go", "build"]

/-- Embeds the bundle-image subcommand of build (dev/build.py lines 76
to 88). In the source the final element of the argument list is the two
adjacent Python string literals, the formatted repository colon tag
literal and a dot literal, which the parser fuses into one argument:
the dot is appended to the tag argument and no separate build-context
argument exists. -/
def build_bundle_image (env : Env) (repository tag : String) : Res Unit :=
  command_run env
    ["podman", "build", "--file", "bundle.Dockerfile", "--tag",
      repository ++ ":" ++ tag ++ "."]

/-- The process exit status of one CLI invocation (dev.py lines 53 to
67): cli() is called with no surrounding try block (the uniform handler
is commented out), so a raised exception terminates the interpreter
with status one, and a normal return exits with status zero. Exit codes
of children started through command_run never reach this boundary. -/
def processExit (r : Res Unit) : Int :=
  match r.1 with
  | .ok _ => 0
  | .error _ => 1

/-- A world in which every tool lookup succeeds: shutil.which finds a
binary for every name. -/
def envAllPresent : Env where
  which := fun _ => some "/usr/local/bin/tool"
  evalExit := fun _ => 0
  evalOut := fun _ => ""
  runExit := fun _ => 0
  pathVar := some "/repo/bin"
  projectDir := parsePath "/repo"
  tmpDir := "/tmp/dev"

/-- A world in which no tool is installed, PATH holds the repository
bin directory, subprocesses report the usual Go platform values, and
every command exits with status zero. -/
def envAbsent : Env where
  which := fun _ => none
  evalExit := fun _ => 0
  evalOut := fun a =>
    if a = ["go", "env", "GOOS"] then "linux"
    else if a = ["go", "env", "GOARCH"] then "amd64" else ""
  runExit := fun _ => 0
  pathVar := some "/repo/bin"
  projectDir := parsePath "/repo"
  tmpDir := "/tmp/dev"

/-- Like envAbsent, except that the sha256sum verification of the
golangci-lint digest file exits with status one: a checksum mismatch. -/
def envShaFail : Env where
  which := fun _ => none
  evalExit := fun _ => 0
  evalOut := fun a =>
    if a = ["go", "env", "GOOS"] then "linux"
    else if a = ["go", "env", "GOARCH"] then "amd64" else ""
  runExit := fun a => if a = ["sha256sum", "--check", "/tmp/dev/digest"] then 1 else 0
  pathVar := some "/repo/bin"
  projectDir := parsePath "/repo"
  tmpDir := "/tmp/dev"

/-- A world in which the compiler invocation go build exits with
status two. -/
def envBuildFail : Env where
  which := fun _ => none
  evalExit := fun _ => 0
  evalOut := fun _ => ""
  runExit := fun a => if a = ["go", "build"] then 2 else 0
  pathVar := some "/repo/bin"
  projectDir := parsePath "/repo"
  tmpDir := "/tmp/dev"

/-- A world in which every captured subprocess, in particular every
go list probe of the dependency manifest, exits with status one and
produces empty output. -/
def envProbesFail : Env where
  which := fun _ => none
  evalExit := fun _ => 1
  evalOut := fun _ => ""
  runExit := fun _ => 0
  pathVar := some "/repo/bin"
  projectDir := parsePath "/repo"
  tmpDir := "/tmp/dev"

/-- A world in which the mock-generation step of generate exits with
status one while everything else succeeds. -/
def envMocksFail : Env where
  which := fun _ => none
  evalExit := fun _ => 0
  evalOut := fun _ => ""
  runExit := fun a => if a = ["go", "generate", "./..."] then 1 else 0
  pathVar := some "/repo/bin"
  projectDir := parsePath "/repo"
  tmpDir := "/tmp/dev"

/-- A world in which PATH consists of exactly the GOBIN directory
reported by the toolchain, and no other candidate directory is on the
search path. -/
def envGobinOnPath : Env where
  which := fun _ => none
  evalExit := fun _ => 0
  evalOut := fun a =>
    if a = ["go", "env", "GOBIN"] then "/gobin"
    else if a = ["go", "env", "GOROOT"] then "/goroot" else ""
  runExit := fun _ => 0
  pathVar := some "/gobin"
  projectDir := parsePath "/repo"
  tmpDir := "/tmp/dev"

/-- The dot literal is never equal to the fused repository-colon-tag-dot
argument of the bundle-image build, whatever the repository and tag:
the fused string is at least two characters long. -/
theorem dotNeFused (r t : String) : (("." : String) == (r ++ ":" ++ t ++ ".")) = false := by
  rw [beq_eq_false_iff_ne]
  intro h
  have hlen := congrArg String.length h
  rw [String.length_append, String.length_append, String.length_append] at hlen
  simp only [show ("." : String).length = 1 from rfl,
    show (":" : String).length = 1 from rfl] at hlen
  omega

/-- Claim C1, evaluated at the failing input: in a world where the
sha256sum checksum verification of the golangci-lint tarball exits with
status one (a mismatch), the installation does not abort: the tar
extraction that places the binary in the selected directory still runs
after the failed verification, and the whole install returns normally.
This contradicts the claim that a checksum mismatch aborts before the
extraction and placement step; the cause is that command.run discards
the exit status of the subprocesses it starts. -/
theorem checksumFailureStillExtracts :
    envShaFail.runExit ["sha256sum", "--check", "/tmp/dev/digest"] = 1 ∧
    install_golangci_lint envShaFail =
      (.ok (), [
        .evalCmd ["go", "env", "GOOS"],
        .evalCmd ["go", "env", "GOARCH"],
        .mkdirTemp "/tmp/dev",
        .runCmd ["curl", "--location", "--silent", "--fail", "--output", "/tmp/dev/tarball",
          "https://github.com/golangci/golangci-lint/releases/download/v"
            ++ versions_GOLANGCI_LINT ++ "/golangci-lint-" ++ versions_GOLANGCI_LINT
            ++ "-linux-amd64.tar.gz"],
        .writeFile "/tmp/dev/digest" (golangciDigest ++ " /tmp/dev/tarball\n"),
        .runCmd ["sha256sum", "--check", "/tmp/dev/digest"],
        .runCmd ["tar", "--directory", "/repo/bin", "--extract", "--file", "/tmp/dev/tarball",
          "--strip-components", "1",
          "golangci-lint-" ++ versions_GOLANGCI_LINT ++ "-linux-amd64/golangci-lint"],
        .removeTree "/tmp/dev"]) :=
  ⟨rfl, rfl⟩

/-- Claim C2, evaluated at the failing input: in a world where the
external command go build exits with status two, the build binary
subcommand still returns normally and the CLI process exits with status
zero, not with the exit status of the failed external command. The
failure does not propagate because command.run never inspects the exit
code of the subprocess it starts. -/
theorem externalFailureExitsZero :
    envBuildFail.runExit ["go", "build"] = 2 ∧
    build_binary envBuildFail = (.ok (), [.runCmd ["go", "build"]]) ∧
    processExit (build_binary envBuildFail) = 0 :=
  ⟨rfl, rfl, rfl⟩

/-- Claim C3, evaluated at the failing input: in a world where every
go list probe of the dependency manifest exits with status one, the
toolchain-native install of the ginkgo tool does not raise the version
not found error: because the Python loop reuses the variable named
version as the unpacking target, after the loop that variable holds the
captured output of the last failed probe (the empty string). The
function therefore logs that output as the version and invokes the
install command with an empty version after the at sign. -/
theorem versionExhaustionStillInstalls :
    envProbesFail.evalExit (goListArgs "github.com/onsi/ginkgo/v2") = 1 ∧
    envProbesFail.evalExit (goListArgs "github.com/onsi/ginkgo") = 1 ∧
    go_install envProbesFail "github.com/onsi/ginkgo/v2/ginkgo" none =
      (.ok (), [
        .evalCmd (goListArgs "github.com/onsi/ginkgo/v2"),
        .evalCmd (goListArgs "github.com/onsi/ginkgo"),
        .logVersion "github.com/onsi/ginkgo/v2/ginkgo" "",
        .runCmd ["go", "install", "github.com/onsi/ginkgo/v2/ginkgo@"]]) :=
  ⟨rfl, rfl, rfl⟩

/-- Claim C4, evaluated at a concrete module path: the list of packages
probed against the dependency manifest for the ginkgo tool starts at
the parent of the full module path, because the loop range starts at
one less than the number of segments; the full module path itself is
never probed, contrary to the claim (and to the sources own comment
about trying the complete package path first). -/
theorem probeListSkipsFullPath :
    probedPackages (splitOnChar '/' "github.com/onsi/ginkgo/v2/ginkgo") =
      ["github.com/onsi/ginkgo/v2", "github.com/onsi/ginkgo"] ∧
    ((probedPackages (splitOnChar '/' "github.com/onsi/ginkgo/v2/ginkgo")).contains
      "github.com/onsi/ginkgo/v2/ginkgo") = false := by
  refine ⟨rfl, ?_⟩
  decide

/-- Claim C5, evaluated at the failing input: invoking generate with no
subcommand does run mock generation, manifest generation, deep-copy
generation and bundle generation in that fixed order, but in a world
where the first step (go generate) exits with status one, nothing
aborts: all subsequent steps are still invoked, because command.run
discards exit codes and so no step can fail in a way the caller sees. -/
theorem generateIgnoresFailure :
    envMocksFail.runExit ["go", "generate", "./..."] = 1 ∧
    generate_all envMocksFail =
      (.ok (), [
        .runCmd ["go", "generate", "./..."],
        .runCmd ["controller-gen", "rbac:roleName=manager-role", "crd", "webhook",
          "paths=./...", "output:crd:artifacts:config=config/crd/bases"],
        .runCmd ["controller-gen", "object:headerFile=hack/boilerplate.go.txt", "paths=./..."],
        .runCmd ["operator-sdk", "generate", "kustomize", "manifests", "--quiet",
          "--apis-dir", "api"],
        .runCmdIn "config/manager"
          ["kustomize", "edit", "set", "image",
            "controller=quay.io/openshift-kni/oran-o2ims:latest"],
        .runCmd ["kustomize", "build", "config/manifests"],
        .runCmd ["operator-sdk", "bundle", "validate", "./bundle"]]) :=
  ⟨rfl, rfl⟩

/-- Claim C6: for every tool whose expected binary name is already on
the search path, the install operation succeeds immediately with only
an informational log: no subprocess, no network fetch, no filesystem
write, in every outside world, whatever the captured outputs or exit
codes report, so no version check of the present binary can occur. This
covers the toolchain-native strategy for every tool path and every
optional version, and each of the release-artifact installers. -/
theorem presentToolInstallIsNoop (env : Env) (tool : String) (ver : Option String) (b : String) :
    (env.which (goBinName tool) = some b →
      go_install env tool ver = (.ok (), [.logInstalled (goBinName tool) b])) ∧
    (env.which "golangci-lint" = some b →
      install_golangci_lint env = (.ok (), [.logInstalled "golangci-lint" b])) ∧
    (env.which "opm" = some b → install_opm env = (.ok (), [.logInstalled "opm" b])) ∧
    (env.which "operator-sdk" = some b →
      install_operator_sdk env = (.ok (), [.logInstalled "operator-sdk" b])) ∧
    (env.which "spectral" = some b →
      install_spectral env = (.ok (), [.logInstalled "spectral" b])) ∧
    (env.which "go" = some b → install_go env = (.ok (), [.logInstalled "go" b])) := by
  refine ⟨fun h => ?_, fun h => ?_, fun h => ?_, fun h => ?_, fun h => ?_, fun h => ?_⟩ <;>
    simp [go_install, install_golangci_lint, install_opm, install_operator_sdk,
      install_spectral, install_go, h]

/-- Witness for claim C6 at a concrete world where every binary is
found at one location. -/
theorem presentToolInstallIsNoopWitness :
    go_install envAllPresent "github.com/onsi/ginkgo/v2/ginkgo" none =
      (.ok (), [.logInstalled "ginkgo" "/usr/local/bin/tool"]) ∧
    install_golangci_lint envAllPresent =
      (.ok (), [.logInstalled "golangci-lint" "/usr/local/bin/tool"]) ∧
    install_opm envAllPresent = (.ok (), [.logInstalled "opm" "/usr/local/bin/tool"]) ∧
    install_operator_sdk envAllPresent =
      (.ok (), [.logInstalled "operator-sdk" "/usr/local/bin/tool"]) ∧
    install_spectral envAllPresent =
      (.ok (), [.logInstalled "spectral" "/usr/local/bin/tool"]) ∧
    install_go envAllPresent = (.ok (), [.logInstalled "go" "/usr/local/bin/tool"]) := by
  obtain ⟨h1, h2, h3, h4, h5, h6⟩ :=
    presentToolInstallIsNoop envAllPresent "github.com/onsi/ginkgo/v2/ginkgo" none
      "/usr/local/bin/tool"
  exact ⟨h1 rfl, h2 rfl, h3 rfl, h4 rfl, h5 rfl, h6 rfl⟩

/-- Claim C7, evaluated at the failing input: in a world where the
search path consists of exactly the GOBIN directory reported by the
toolchain, the GOBIN candidate is a member of the search path when
compared as a path, yet the directory selection does not return it: it
falls through to the GOROOT candidate and then raises the no suitable
binaries directory error. The cause is that the GOBIN candidate is
tested as a raw string against a collection of path objects, a
comparison that is false for every string. The claim, which says the
first candidate that is a member of the search path is returned, fails
here; no write effect is performed either way. -/
theorem gobinOnPathNotSelected :
    pathEntries "/gobin" = [PyVal.ofPath (parsePath "/gobin")] ∧
    pyMember (.ofPath (parsePath "/gobin")) (pathEntries "/gobin") = true ∧
    pyMember (.ofStr "/gobin") (pathEntries "/gobin") = false ∧
    envGobinOnPath.evalExit ["go", "env", "GOBIN"] = 0 ∧
    envGobinOnPath.evalOut ["go", "env", "GOBIN"] = "/gobin" ∧
    select_bin_directory envGobinOnPath =
      (.error .noBinDirectory,
        [.evalCmd ["go", "env", "GOBIN"], .evalCmd ["go", "env", "GOROOT"]]) :=
  ⟨rfl, rfl, rfl, rfl, rfl, rfl⟩

/-- Claim C8: when an explicit version is supplied to the
toolchain-native install, no dependency-manifest lookup occurs in any
world: if the binary is already present only the informational log
happens, and otherwise the only effect is the install command itself,
invoked with the tool path and the explicit version joined by an at
sign. In particular the effect list never holds a captured go list
subprocess. -/
theorem explicitVersionNoManifestProbe (env : Env) (tool v : String) :
    (∀ b, env.which (goBinName tool) = some b →
      go_install env tool (some v) = (.ok (), [.logInstalled (goBinName tool) b])) ∧
    (env.which (goBinName tool) = none →
      go_install env tool (some v) = (.ok (), [.runCmd ["go", "install", tool ++ "@" ++ v]])) := by
  constructor
  · intro b h
    simp [go_install, h]
  · intro h
    simp [go_install, h, command_run]

/-- Witness for claim C8 at concrete worlds with the binary absent and
present. -/
theorem explicitVersionNoManifestProbeWitness :
    go_install envAbsent "go.uber.org/mock/mockgen" (some "v0.3.0") =
      (.ok (), [.runCmd ["go", "install", "go.uber.org/mock/mockgen@v0.3.0"]]) ∧
    go_install envAllPresent "go.uber.org/mock/mockgen" (some "v0.3.0") =
      (.ok (), [.logInstalled "mockgen" "/usr/local/bin/tool"]) :=
  ⟨(explicitVersionNoManifestProbe envAbsent "go.uber.org/mock/mockgen" "v0.3.0").2 rfl,
   (explicitVersionNoManifestProbe envAllPresent "go.uber.org/mock/mockgen" "v0.3.0").1
     "/usr/local/bin/tool" rfl⟩

/-- Claim C9: in every world, the toolchain prerequisite check succeeds
as a pure no-op (an informational log only) when a go binary is on the
search path, and otherwise raises immediately with no effect at all: no
download and no installation is ever attempted for the toolchain. -/
theorem goToolchainHardPrerequisite (env : Env) :
    (∀ d, env.which "go" = some d →
      install_go env = (.ok (), [.logInstalled "go" d])) ∧
    (env.which "go" = none → install_go env = (.error .goToolMissing, [])) := by
  constructor
  · intro d h
    simp [install_go, h]
  · intro h
    simp [install_go, h]

/-- Witness for claim C9 at concrete worlds with the toolchain present
and absent. -/
theorem goToolchainHardPrerequisiteWitness :
    install_go envAllPresent = (.ok (), [.logInstalled "go" "/usr/local/bin/tool"]) ∧
    install_go envAbsent = (.error .goToolMissing, []) :=
  ⟨(goToolchainHardPrerequisite envAllPresent).1 "/usr/local/bin/tool" rfl,
   (goToolchainHardPrerequisite envAbsent).2 rfl⟩

/-- Claim C10: for every repository and tag, the bundle-image build
invokes the container build tool with exactly the six-element argument
list whose final element is the repository, a colon, the tag and a
fused trailing dot, and no element of that list is a bare dot: the
build-context dot literal was fused onto the tag argument by adjacent
string-literal concatenation, so no separate build-context argument is
passed. -/
theorem bundleImageFusedContext (env : Env) (repository tag : String) :
    build_bundle_image env repository tag =
      (.ok (), [.runCmd ["podman", "build", "--file", "bundle.Dockerfile", "--tag",
        repository ++ ":" ++ tag ++ "."]]) ∧
    ((["podman", "build", "--file", "bundle.Dockerfile", "--tag",
        repository ++ ":" ++ tag ++ "."].contains ".") = false) := by
  refine ⟨rfl, ?_⟩
  simp [List.contains, List.elem, dotNeFused repository tag]

/-- Witness for claim C10 at a concrete repository and tag. -/
theorem bundleImageFusedContextWitness :
    build_bundle_image envAbsent "quay.io/openshift-kni/oran-o2ims-bundle" "latest" =
      (.ok (), [.runCmd ["podman", "build", "--file", "bundle.Dockerfile", "--tag",
        "quay.io/openshift-kni/oran-o2ims-bundle:latest."]]) ∧
    ((["podman", "build", "--file", "bundle.Dockerfile", "--tag",
        "quay.io/openshift-kni/oran-o2ims-bundle:latest."].contains ".") = false) := by
  have h := bundleImageFusedContext envAbsent "quay.io/openshift-kni/oran-o2ims-bundle" "latest"
  exact h

end Dev
